import Mathlib

/-!
Shallow embedding of the ic-trendy repository's server logic: the heuristic
title scorer and retry helper of `src/app/api/youtube/score-title/route.ts`,
the title-rewrite and US trending-feed handlers of `src/unnamed/part_001`,
the India trending-feed handler of `src/unnamed/part_000`, the keyword
research trend-direction logic of `src/unnamed/part_002`, the analyze-title
shaping of `src/app/api/youtube/analyze-title/route.ts`, and the CSV
generation of `src/lib/csv-utils.ts`.

Modelling conventions, used throughout:
* JS strings are Lean `String`s; `String.length` stands for the JS `length`
  (they agree on the ASCII data these handlers manipulate), and the string
  primitives (split, trim, toLowerCase) are re-implemented structurally on
  `String.data` so that every definition evaluates inside the kernel.
* JS numbers are `Int`/`Nat`, with `ℚ` where a statement needs a quotient.
  The JS float comparisons (`ratio > 0.3`, `similarity < 0.7`,
  `recent > older * 1.5`) are embedded as the exact rational comparisons; at
  the integer magnitudes these handlers produce, the double-precision and
  the exact comparisons agree.
* `Math.random()` draws are passed in as explicit parameters.
* Thrown JS errors are `JsError` values and fallible code returns `Except`.
-/

/-- JS `hay.includes(needle)`: substring containment. -/
def strContains (hay needle : String) : Bool :=
  (List.range (hay.data.length + 1)).any (fun i => needle.data.isPrefixOf (hay.data.drop i))

/-- Split a character list at every character satisfying `p` (the semantics
of JS `split` with a single-character separator, and of `String.split`):
`n` matching characters yield `n + 1` (possibly empty) fields. -/
def splitChars (p : Char → Bool) : List Char → List (List Char)
  | [] => [[]]
  | c :: cs =>
    if p c then [] :: splitChars p cs
    else
      match splitChars p cs with
      | [] => [[c]]
      | t :: ts => (c :: t) :: ts

/-- JS `s.split(sep)` for a one-character separator `sep`. -/
def jsSplitChar (sep : Char) (s : String) : List String :=
  (splitChars (fun c => c = sep) s.data).map String.mk

/-- JS `s.split(/\s+/)`: split on maximal whitespace runs.  The empty string
yields `[""]`; leading (trailing) whitespace yields a leading (trailing)
empty token, exactly as in JS. -/
def splitWs (s : String) : List String :=
  match h : s.data with
  | [] => [""]
  | c0 :: rest =>
    let toks := ((splitChars Char.isWhitespace s.data).map String.mk).filter (fun t => t ≠ "")
    let toks := if c0.isWhitespace then "" :: toks else toks
    if ((c0 :: rest).getLast (by simp)).isWhitespace then toks ++ [""] else toks

/-- JS `s.toLowerCase()` (ASCII; the titles the claims touch are ASCII). -/
def jsToLower (s : String) : String := String.mk (s.data.map Char.toLower)

/-- JS `s.trim()`. -/
def jsTrim (s : String) : String :=
  String.mk (((s.data.dropWhile Char.isWhitespace).reverse.dropWhile Char.isWhitespace).reverse)

/-- JS `Math.round(a / b)` for integers with `b > 0`, computed exactly:
`⌊a/b + 1/2⌋ = ⌊(2a+b)/(2b)⌋`, and `Int` division `/` is floor division for a
positive divisor.  `jsRoundDiv_eq_floor` below proves the floor reading. -/
def jsRoundDiv (a b : ℤ) : ℤ := (2 * a + b) / (2 * b)

/-- The number of entries of `words` occurring as substrings of `s` (the
accumulated effect of the source's `forEach`/`includes` loops). -/
def countPresent (s : String) (words : List String) : ℤ :=
  ((words.filter (fun w => strContains s w)).length : ℤ)

/-- First-occurrence deduplication by a key, the JS
`filter((item, i, self) => i === self.findIndex(...))` idiom and
`[...new Set(xs)]`: `seen` holds the keys already kept. -/
def dedupByKeyGo (key : α → String) (seen : List String) : List α → List α
  | [] => []
  | x :: xs =>
    if seen.contains (key x) then dedupByKeyGo key seen xs
    else x :: dedupByKeyGo key (key x :: seen) xs

def dedupByKey (key : α → String) (l : List α) : List α := dedupByKeyGo key [] l

/-! ## The heuristic title scorer (`score-title/route.ts`, lines 36-175) -/

/-- The five-way breakdown of a `TitleScore`. -/
structure Breakdown where
  length : ℤ
  keywords : ℤ
  engagement : ℤ
  clarity : ℤ
  trending : ℤ
deriving DecidableEq, Repr

structure TitleScore where
  overall : ℤ
  breakdown : Breakdown
  improvements : List String
  strengths : List String
deriving DecidableEq, Repr

/-- `calculateLengthScore`: banded function of the character count. -/
def calculateLengthScore (title : String) : ℤ :=
  if 50 ≤ title.length ∧ title.length ≤ 60 then 100
  else if 40 ≤ title.length ∧ title.length ≤ 70 then 80
  else if 30 ≤ title.length ∧ title.length ≤ 80 then 60
  else 40

def scoreKeywords : List String :=
  ["how to", "best", "top", "guide", "tutorial", "review", "vs", "tips", "tricks", "secrets"]

def scoreTrendingWords : List String :=
  ["2024", "2025", "new", "latest", "update", "viral", "trending"]

/-- `calculateKeywordScore`: 50 plus 10 per matched keyword and 5 per matched
trending word, capped at 100. -/
def calculateKeywordScore (title : String) : ℤ :=
  min (50 + 10 * countPresent (jsToLower title) scoreKeywords
          + 5 * countPresent (jsToLower title) scoreTrendingWords) 100

def scorePowerWords : List String :=
  ["amazing", "incredible", "shocking", "unbelievable", "secret", "hidden", "ultimate", "perfect"]

/-- JS `/[A-Z]{2,}/.test(title)`: a run of at least two ASCII uppercase letters. -/
def hasCapsRun (title : String) : Bool :=
  (title.data.zip title.data.tail).any (fun p => p.1.isUpper && p.2.isUpper)

/-- `calculateEngagementScore`: 40 plus 8 per power word, 15 for a digit, 10
for "?", 5 for "!", 10 for an uppercase run, capped at 100. -/
def calculateEngagementScore (title : String) : ℤ :=
  min (40 + 8 * countPresent (jsToLower title) scorePowerWords
          + (if title.data.any Char.isDigit then 15 else 0)
          + (if strContains title "?" then 10 else 0)
          + (if strContains title "!" then 5 else 0)
          + (if hasCapsRun title then 10 else 0)) 100

/-- The count of `!?.,;:` characters, JS `title.match(/[!?.,;:]/g)`. -/
def punctCount (title : String) : Nat :=
  (title.data.filter (fun c => ['!', '?', '.', ',', ';', ':'].contains c)).length

/-- The count of ASCII uppercase letters, JS `title.match(/[A-Z]/g)`. -/
def capsCount (title : String) : Nat :=
  (title.data.filter Char.isUpper).length

/-- `calculateClarityScore`: 70, minus 20 for more than three punctuation
marks, plus 10 for a ":" or "-", minus 15 when the uppercase ratio exceeds
0.3 (embedded exactly as `10 * capsCount > 3 * length`; for the empty title
the JS ratio is `NaN` and `NaN > 0.3`, like `0 > 0`, is false), floored at 20. -/
def calculateClarityScore (title : String) : ℤ :=
  max ((70 : ℤ)
    + (if punctCount title > 3 then -20 else 0)
    + (if strContains title ":" || strContains title "-" then 10 else 0)
    + (if 10 * capsCount title > 3 * title.length then -15 else 0)) 20

def scoreTrendingFormats : List String :=
  ["vs", "reaction", "review", "unboxing", "first time", "trying", "challenge"]

/-- `calculateTrendingScore`: 50 plus 10 per matched format plus 15 when the
current year string occurs, capped at 100.  `currentYear` stands for
`new Date().getFullYear().toString()`. -/
def calculateTrendingScore (currentYear title : String) : ℤ :=
  min (50 + 10 * countPresent (jsToLower title) scoreTrendingFormats
          + (if strContains title currentYear then 15 else 0)) 100

/-- `generateImprovements`: fixed templates keyed to sub-scores below 70,
capped to 4. -/
def generateImprovements (title : String) (b : Breakdown) : List String :=
  ((if b.length < 70 then
      (if title.length < 40 then
        ["Consider making your title longer (40-60 characters is optimal)"] else [])
      ++ (if title.length > 70 then
        ["Try shortening your title for better visibility"] else [])
    else [])
  ++ (if b.keywords < 70 then
      ["Add relevant keywords like 'how to', 'best', or 'guide' to improve searchability"] else [])
  ++ (if b.engagement < 70 then
      ["Include numbers or power words to make your title more engaging"] else [])
  ++ (if b.clarity < 70 then
      ["Make your title clearer and more specific about the video content"] else [])
  ++ (if b.trending < 70 then
      ["Consider adding current year or trending formats to boost discoverability"] else [])).take 4

/-- `generateStrengths`: fixed templates keyed to sub-scores at or above 80,
capped to 3 (the source's `title` parameter is unused). -/
def generateStrengths (_title : String) (b : Breakdown) : List String :=
  ((if b.length ≥ 80 then ["Great title length for optimal visibility"] else [])
  ++ (if b.keywords ≥ 80 then ["Good use of searchable keywords"] else [])
  ++ (if b.engagement ≥ 80 then ["Engaging and attention-grabbing"] else [])
  ++ (if b.clarity ≥ 80 then ["Clear and easy to understand"] else [])
  ++ (if b.trending ≥ 80 then ["Uses trending formats effectively"] else [])).take 3

/-- `calculateFallbackScore`: the heuristic fallback `TitleScore`.  `overall`
is `Math.round` of the mean of the five sub-scores; the quotient's fractional
part is a multiple of 1/5, never exactly 1/2, so the JS double rounding
coincides with the exact rounding embedded by `jsRoundDiv`. -/
def calculateFallbackScore (currentYear title : String) : TitleScore :=
  let breakdown : Breakdown :=
    { length := calculateLengthScore title
      keywords := calculateKeywordScore title
      engagement := calculateEngagementScore title
      clarity := calculateClarityScore title
      trending := calculateTrendingScore currentYear title }
  { overall := jsRoundDiv (breakdown.length + breakdown.keywords + breakdown.engagement
        + breakdown.clarity + breakdown.trending) 5
    breakdown := breakdown
    improvements := generateImprovements title breakdown
    strengths := generateStrengths title breakdown }

example : calculateLengthScore "BGMI Best Tips and Tricks 2024" = 60 := by decide
example : jsRoundDiv 347 5 = 69 := by decide
example : jsRoundDiv 348 5 = 70 := by decide
example : splitWs " a  b " = ["", "a", "b", ""] := by decide
example : strContains "hello world" "lo w" = true := by decide
example : strContains "hello" "z" = false := by decide
example : jsToLower "AbC" = "abc" := by decide
example : jsTrim "  x y  " = "x y" := by decide
example : jsSplitChar ' ' "a  b" = ["a", "", "b"] := by decide

/-! ## The retry helper (`score-title/route.ts`, lines 19-34) -/

/-- A thrown JS error as the handlers inspect it: an optional `status` code
and a `message`. -/
structure JsError where
  status : Option Nat
  message : String
deriving DecidableEq, Repr

/-- What one run of `retryWithBackoff` did: its outcome, the waits it
scheduled (in milliseconds, in order), and how many times it invoked the
operation. -/
structure RetryTrace (α : Type) where
  result : Except JsError α
  delays : List Nat
  count : Nat

/-- The `for (attempt = 0; attempt < maxRetries; attempt++)` loop of
`retryWithBackoff`, over the list of remaining attempt indices: the source's
`attempt < maxRetries - 1` test is exactly "this is not the last index".
The operation `fn` gives each attempt's outcome. -/
def retryLoop (fn : Nat → Except JsError α) (baseDelay : Nat) : List Nat → RetryTrace α
  | [] => ⟨.error ⟨none, "Max retries exceeded"⟩, [], 0⟩
  | attempt :: rest =>
    match fn attempt with
    | .ok v => ⟨.ok v, [], 1⟩
    | .error e =>
      if e.status = some 429 ∧ rest ≠ [] then
        let t := retryLoop fn baseDelay rest
        ⟨t.result, baseDelay * 2 ^ attempt :: t.delays, t.count + 1⟩
      else ⟨.error e, [], 1⟩

/-- `retryWithBackoff(fn, maxRetries, baseDelay)` (the call sites use
`maxRetries = 3`, `baseDelay = 1000`). -/
def retryWithBackoff (fn : Nat → Except JsError α) (maxRetries baseDelay : Nat) : RetryTrace α :=
  retryLoop fn baseDelay (List.range maxRetries)

/-! ## The score-title handler (`score-title/route.ts`, lines 177-281) -/

/-- A parsed AI scoring reply as the handler's truthiness validation sees
it: `none` in a field stands for a missing, `null` or otherwise falsy value,
and `overall` keeps its number so that `0` can be told apart. -/
structure AIReply where
  overall : Option ℤ
  breakdown : Option Breakdown
  improvements : Option (List String)
  strengths : Option (List String)
deriving DecidableEq, Repr

/-- What `JSON.parse` made of the AI text: `junk` when parsing threw. -/
inductive ParsedAI
  | junk
  | reply (r : AIReply)
deriving DecidableEq, Repr

/-- The handler's structure check
`!scoreData.overall || !scoreData.breakdown || !scoreData.improvements || !scoreData.strengths`,
negated: truthiness, not key presence, so `overall: 0` fails it. -/
def replyValid (r : AIReply) : Bool :=
  (match r.overall with
   | none => false
   | some n => n != 0)
  && r.breakdown.isSome && r.improvements.isSome && r.strengths.isSome

/-- The JSON body and status the score-title handler replies with:
`ai` is the validated AI score (HTTP 200), `fallback` the heuristic score
(HTTP 200) with the `fallbackUsed`/`message` fields it may carry, and `err`
an error body with its HTTP status. -/
inductive ScoreResponse
  | ai (r : AIReply)
  | fallback (s : TitleScore) (fallbackUsed : Bool) (message : Option String)
  | err (msg : String) (status : Nat)
deriving DecidableEq, Repr

def ScoreResponse.statusCode : ScoreResponse → Nat
  | .ai _ => 200
  | .fallback _ _ _ => 200
  | .err _ s => s

def scoreQuotaMessage : String :=
  "AI analysis unavailable due to quota limits. Using rule-based scoring."

def scoreRateLimitMessage : String :=
  "AI analysis temporarily unavailable. Using rule-based scoring."

/-- The `POST` handler of `score-title/route.ts`.  `title` is the parsed
body's title (`none` for a missing or non-string value; the source also
rejects the falsy `""`), `hasKey` whether `OPENAI_API_KEY` is set, and `ai`
gives, per attempt, the outcome of `generateText` combined with what
`JSON.parse` makes of its text (the parse of free-form text is abstracted
into the outcome).  The outer catch-all of the source only handles request
parsing and serialization faults, which this model treats as absent. -/
def scoreTitlePost (currentYear : String) (title : Option String) (hasKey : Bool)
    (ai : Nat → Except JsError ParsedAI) : ScoreResponse :=
  match title with
  | none => .err "Title is required" 400
  | some t =>
    if t = "" then .err "Title is required" 400
    else if !hasKey then .fallback (calculateFallbackScore currentYear t) false none
    else
      match (retryWithBackoff ai 3 1000).result with
      | .ok .junk => .fallback (calculateFallbackScore currentYear t) false none
      | .ok (.reply r) =>
        if replyValid r then .ai r
        else .fallback (calculateFallbackScore currentYear t) false none
      | .error e =>
        if e.status = some 402 || strContains e.message "quota"
            || strContains e.message "billing" then
          .fallback (calculateFallbackScore currentYear t) true (some scoreQuotaMessage)
        else if e.status = some 429 then
          .fallback (calculateFallbackScore currentYear t) true (some scoreRateLimitMessage)
        else .fallback (calculateFallbackScore currentYear t) false none

/-! ## The title-rewrite handler (`src/unnamed/part_001`, second file) -/

def rewritePowerWords : List String :=
  ["Amazing", "Shocking", "Incredible", "Unbelievable", "Secret",
   "Hidden", "Ultimate", "Best", "Worst", "Epic"]

def rewriteEmotions : List String :=
  ["😱", "🔥", "💯", "⚡", "🚀", "💥", "🎯", "✨"]

/-- `generateFallbackRewrites`: the five template rewrites.  `pw` and `em`
are the two `Math.floor(Math.random() * length)` draws, already reduced to
indices. -/
def generateFallbackRewrites (pw em : Nat) (title : String) : List String :=
  [(rewritePowerWords.getD (pw % rewritePowerWords.length) "") ++ " " ++ title,
   title ++ " " ++ rewriteEmotions.getD (em % rewriteEmotions.length) "",
   "You Won't Believe: " ++ title,
   title ++ " - Must Watch!",
   "The Truth About " ++ title]

/-- JS `/^\d+[.)]/`: one or more digits then "." or ")". -/
def isNumberedLine (s : String) : Bool :=
  let ds := s.data.takeWhile Char.isDigit
  ds ≠ [] &&
    (match s.data.drop ds.length with
     | c :: _ => c = '.' || c = ')'
     | [] => false)

/-- The parsing of the completion text inside `rewriteTitlesWithAI`: split
on newlines, trim, drop empty and numbered lines, keep 5, pad with
`"<title> - Variation <n>"` until there are 5. -/
def parseRewrites (title content : String) : List String :=
  let lines := ((jsSplitChar '\n' content).map jsTrim).filter
    (fun line => line.length > 0 && !(isNumberedLine line))
  let kept := lines.take 5
  kept ++ (List.range (5 - kept.length)).map
    (fun i => title ++ " - Variation " ++ toString (kept.length + i + 1))

def rewriteRateLimitError : JsError :=
  ⟨none, "Rate limit exceeded. Please try again in a moment."⟩

/-- The `for (attempt = 1; attempt <= maxRetries; attempt++)` loop of
`rewriteTitlesWithAI`, over the list of remaining 1-based attempt indices
(`attempt < maxRetries` is "this is not the last index", `attempt ===
maxRetries` is "this is the last index").  `ai` gives each attempt's
completion text or error; an empty text is the falsy `content` that the
source turns into a thrown "No content received from OpenAI" error, caught
by the same attempt's catch block. -/
def rewriteLoop (title : String) (pw em : Nat) (ai : Nat → Except JsError String) :
    List Nat → Except JsError (List String)
  | [] => .error ⟨none, "Failed to rewrite titles after all attempts"⟩
  | attempt :: rest =>
    match ai attempt with
    | .ok content =>
      if content = "" then
        -- thrown error without status: retried on a linear delay unless last
        if rest = [] then .error ⟨none, "No content received from OpenAI"⟩
        else rewriteLoop title pw em ai rest
      else .ok (parseRewrites title content)
    | .error e =>
      if e.status = some 429 then
        if rest = [] then .error rewriteRateLimitError
        else rewriteLoop title pw em ai rest
      else if e.status = some 402 then .ok (generateFallbackRewrites pw em title)
      else if rest = [] then .error e
      else rewriteLoop title pw em ai rest

/-- `rewriteTitlesWithAI(title, maxRetries)` (the handler calls it with the
default `maxRetries = 3`). -/
def rewriteTitlesWithAI (title : String) (pw em : Nat) (ai : Nat → Except JsError String)
    (maxRetries : Nat) : Except JsError (List String) :=
  rewriteLoop title pw em ai (List.range' 1 maxRetries)

/-- The JSON body and status the title-rewrite handler replies with.
`success` carries `rewrittenTitles`, `originalTitle`, `fallbackUsed` and the
optional `message` (HTTP 200); `err` carries the error body, HTTP status and
optional machine-readable `type` field. -/
inductive RewriteResponse
  | success (rewrittenTitles : List String) (originalTitle : String)
      (fallbackUsed : Bool) (message : Option String)
  | err (msg : String) (status : Nat) (errType : Option String)
deriving DecidableEq, Repr

def RewriteResponse.statusCode : RewriteResponse → Nat
  | .success _ _ _ _ => 200
  | .err _ s _ => s

def rewriteFallbackMessage : String :=
  "Generated using basic rewrite patterns (OpenAI unavailable)"

/-- The `POST` handler of the title-rewrite route.  The outer catch-all,
which maps an escaped "Rate limit exceeded" message to HTTP 429 with
`type: "rate_limit"`, only handles request parsing and serialization
faults: every `rewriteTitlesWithAI` failure is already consumed by the
inner catch, so the model's body is total and that branch is absent. -/
def rewritePost (title : Option String) (hasKey : Bool) (pw em : Nat)
    (ai : Nat → Except JsError String) : RewriteResponse :=
  match title with
  | none => .err "Title is required and must be a string" 400 none
  | some t =>
    if t = "" then .err "Title is required and must be a string" 400 none
    else if !hasKey then
      .success (generateFallbackRewrites pw em t) t true (some rewriteFallbackMessage)
    else
      match rewriteTitlesWithAI t pw em ai 3 with
      | .ok titles => .success titles t false none
      | .error e =>
        if strContains e.message "quota exceeded"
            || strContains e.message "Rate limit exceeded" then
          .success (generateFallbackRewrites pw em t) t true (some rewriteFallbackMessage)
        else .err "Failed to rewrite titles. Please try again." 500 none

example :
    (retryWithBackoff (fun _ => (.error ⟨some 429, "x"⟩ : Except JsError Nat)) 3 1000).count
      = 3 := by decide
example :
    (retryWithBackoff (fun i => if i < 2 then (.error ⟨some 429, "x"⟩ : Except JsError Nat)
      else .ok 7) 3 1000).delays = [1000, 2000] := by decide
example : parseRewrites "T" "A\n2) B\n  C  \n" = ["A", "C", "T - Variation 3",
    "T - Variation 4", "T - Variation 5"] := by decide

/-! ## The trending-feed handlers (`src/unnamed/part_001` first file: US;
`src/unnamed/part_000`: India) -/

/-- The fields of an upstream video that the trending handlers read. -/
structure VideoItem where
  title : String
  viewCount : Nat
  categoryId : String
deriving DecidableEq, Repr

structure TrendingItem where
  keyword : String
  searchVolume : ℤ
  category : String
deriving DecidableEq, Repr

/-- Descending order by `searchVolume`, the US handler's
`sort((a, b) => b.searchVolume - a.searchVolume)`. -/
def volGe (a b : TrendingItem) : Prop := b.searchVolume ≤ a.searchVolume

instance : DecidableRel volGe := fun a b =>
  inferInstanceAs (Decidable (b.searchVolume ≤ a.searchVolume))

instance : IsTotal TrendingItem volGe := ⟨fun a b => le_total b.searchVolume a.searchVolume⟩

instance : IsTrans TrendingItem volGe := ⟨fun _ _ _ h1 h2 => le_trans h2 h1⟩

/-- The US handler's derived keyword before the `||` default:
`title.toLowerCase().replace(/[^\w\s]/g, "").split(" ").filter(w.length > 3).slice(0, 3).join(" ")`. -/
def usKeywordBase (title : String) : String :=
  let cleaned := String.mk ((jsToLower title).data.filter
    (fun c => c.isAlphanum || c = '_' || c.isWhitespace))
  String.intercalate " " (((jsSplitChar ' ' cleaned).filter (fun w => w.length > 3)).take 3)

/-- One mapped entry of the US handler.  `rand` is that entry's
`Math.random()` draw, in `[0, 1)`; the float products and the division are
taken exactly (the claims settled over this handler hold for every value of
the volume). -/
def usItem (rand : ℚ) (v : VideoItem) : TrendingItem :=
  let ks := usKeywordBase v.title
  { keyword := if ks = "" then String.mk (v.title.data.take 30) else ks
    searchVolume := max 1000 (min ⌊((v.viewCount : ℚ) / 1000) * (rand * (1/2) + 1/2)⌋ 500000)
    category := v.categoryId }

/-- The US trending list: map, deduplicate by keyword (first occurrence
kept), sort descending by volume (JS `sort` is stable, as is
`insertionSort`), truncate to 10. -/
def usTrending (items : List VideoItem) (rand : Nat → ℚ) : List TrendingItem :=
  (List.insertionSort volGe
    (dedupByKey TrendingItem.keyword (items.mapIdx (fun i v => usItem (rand i) v)))).take 10

/-- One mapped entry of the India handler: keyword is the first three
space-separated words, volume is `Math.floor(viewCount / 1000)`. -/
def indiaItem (v : VideoItem) : TrendingItem :=
  { keyword := String.intercalate " " ((jsSplitChar ' ' v.title).take 3)
    searchVolume := (v.viewCount / 1000 : Nat)
    category := v.categoryId }

/-- The India trending list: `data.items.slice(0, 10).map(...)` — no
deduplication and no sort in the source. -/
def indiaTrending (items : List VideoItem) : List TrendingItem :=
  (items.take 10).map indiaItem

/-! ## Trend direction (`src/unnamed/part_002`, lines 159-173) -/

/-- The field of an upstream search result that `calculateTrendDirection`
reads, its publish time as a numeric timestamp. -/
structure SearchVideo where
  publishedAt : ℤ
deriving DecidableEq, Repr

inductive TrendDir
  | up
  | down
  | stable
deriving DecidableEq, Repr

/-- Newest-first order, the source's
`sort((a, b) => date(b) - date(a))`. -/
def newerFirst (a b : SearchVideo) : Prop := b.publishedAt ≤ a.publishedAt

instance : DecidableRel newerFirst := fun a b =>
  inferInstanceAs (Decidable (b.publishedAt ≤ a.publishedAt))

instance : IsTotal SearchVideo newerFirst := ⟨fun a b => le_total b.publishedAt a.publishedAt⟩

instance : IsTrans SearchVideo newerFirst := ⟨fun _ _ _ h1 h2 => le_trans h2 h1⟩

def trendSorted (videos : List SearchVideo) : List SearchVideo :=
  List.insertionSort newerFirst videos

/-- `sortedVideos.slice(0, Math.floor(videos.length / 2))`. -/
def trendRecent (videos : List SearchVideo) : List SearchVideo :=
  (trendSorted videos).take (videos.length / 2)

/-- `sortedVideos.slice(Math.floor(videos.length / 2))`. -/
def trendOlder (videos : List SearchVideo) : List SearchVideo :=
  (trendSorted videos).drop (videos.length / 2)

/-- `calculateTrendDirection`: "stable" under 5 videos, else compare the
halves' counts.  The JS float tests `recent > older * 1.5` and
`recent < older * 0.7` are embedded as the exact `2r > 3o` and `10r < 7o`
(`1.5` is a dyadic, hence exact, double; for `0.7` the two readings agree at
every pair of list lengths). -/
def calculateTrendDirection (videos : List SearchVideo) : TrendDir :=
  if videos.length < 5 then .stable
  else if 2 * (trendRecent videos).length > 3 * (trendOlder videos).length then .up
  else if 10 * (trendRecent videos).length < 7 * (trendOlder videos).length then .down
  else .stable

/-! ## The analyze-title handler (`analyze-title/route.ts`) -/

/-- The number of words of `str1` (JS `split(/\s+/)`) that also occur among
the words of `str2`. -/
def commonWordCount (str1 str2 : String) : Nat :=
  ((splitWs str1).filter (fun w => (splitWs str2).contains w)).length

/-- `calculateSimilarity`: common-word count over the larger word count. -/
def calculateSimilarity (str1 str2 : String) : ℚ :=
  (commonWordCount str1 str2 : ℚ) / (max (splitWs str1).length (splitWs str2).length : ℚ)

/-- The executable form of `calculateSimilarity str1 str2 < 0.7`
(`similarBelow_iff` below proves the two readings equal; a word list is
never empty, so the denominator is positive). -/
def similarBelow (str1 str2 : String) : Bool :=
  10 * commonWordCount str1 str2 < 7 * max (splitWs str1).length (splitWs str2).length

/-- The related-titles shaping of the handler: keep titles that are
dissimilar (ratio below 0.7 on the lowercased strings) and longer than 20
characters, then `slice(0, 8)`. -/
def relatedTitlesOf (title : String) (videoTitles : List String) : List String :=
  (videoTitles.filter
    (fun vt => similarBelow (jsToLower title) (jsToLower vt) && decide (vt.length > 20))).take 8

def commonHashtagsList : List String :=
  ["#viral", "#trending", "#youtube", "#shorts", "#fyp", "#subscribe", "#like", "#share"]

/-- The `titleKeywords` of `generateTrendingHashtags`:
`title.toLowerCase().replace(/[^\w\s]/g, "").split(/\s+/).filter(w.length > 2).map('#' + w)`. -/
def analyzeTitleKeywords (title : String) : List String :=
  ((splitWs (String.mk ((jsToLower title).data.filter
    (fun c => c.isAlphanum || c = '_' || c.isWhitespace)))).filter
      (fun w => w.length > 2)).map (fun w => "#" ++ w)

def gamingKeywordsList : List String :=
  ["bgmi", "gaming", "game", "pubg", "mobile", "tips", "tricks", "gameplay"]

def gamingHashtagsList : List String :=
  ["#gaming", "#mobilegaming", "#bgmi", "#pubgmobile", "#gamingcommunity", "#esports"]

def musicKeywordsList : List String :=
  ["song", "music", "cover", "remix", "beat", "lyrics"]

def musicHashtagsList : List String :=
  ["#music", "#song", "#cover", "#remix", "#musician", "#newmusic"]

/-- `generateTrendingHashtags` (its `videos` parameter is unused in the
source body): combine, deduplicate via `[...new Set(...)]`, `slice(0, 12)`. -/
def generateTrendingHashtags (title : String) (_videos : List String) : List String :=
  let tks := analyzeTitleKeywords title
  let gamingHashtags :=
    if tks.any (fun tag => gamingKeywordsList.any (fun k => strContains tag k)) then
      gamingHashtagsList else []
  let musicHashtags :=
    if tks.any (fun tag => musicKeywordsList.any (fun k => strContains tag k)) then
      musicHashtagsList else []
  (dedupByKey id (tks.take 3 ++ gamingHashtags ++ musicHashtags ++ commonHashtagsList)).take 12

def emotionalWordsList : List String :=
  ["amazing", "incredible", "shocking", "unbelievable", "epic", "insane", "crazy"]

/-- The `trendingWords` of `generateOptimizationSuggestions`: words of the
joined related titles occurring at least 3 times, first three.  The JS
`Object.entries` order puts integer-like keys first; that reordering cannot
affect the counted bound proved about the output. -/
def trendingNicheWords (relatedTitles : List String) : List String :=
  let commonWords :=
    (splitWs (jsToLower (String.intercalate " " relatedTitles))).filter (fun w => w.length > 3)
  ((dedupByKey id commonWords).filter (fun w => commonWords.count w ≥ 3)).take 3

/-- `generateOptimizationSuggestions`: the pushed templates, `slice(0, 4)`. -/
def generateOptimizationSuggestions (title : String) (relatedTitles : List String) : List String :=
  let niche := trendingNicheWords relatedTitles
  ((if title.length < 30 then
      ["Consider making your title longer (30-60 characters) for better SEO"]
    else if title.length > 100 then
      ["Your title might be too long. Consider shortening it to under 60 characters"]
    else [])
  ++ (if title.data.any Char.isDigit then [] else
      ["Adding numbers (like '2024', 'Top 10', '5 Tips') can increase click-through rates"])
  ++ (if emotionalWordsList.any (fun w => strContains (jsToLower title) w) then [] else
      ["Consider adding emotional words like 'Amazing', 'Epic', or 'Incredible' to boost engagement"])
  ++ (if niche.isEmpty then [] else
      ["Trending words in your niche: " ++ String.intercalate ", " niche
        ++ ". Consider incorporating them."])).take 4

/-- The `TitleAnalysis` JSON body of the analyze-title handler. -/
structure TitleAnalysis where
  relatedTitles : List String
  hashtags : List String
  suggestions : List String
deriving DecidableEq, Repr

/-- The 200-response body of the analyze-title `POST` for a given title and
upstream search result titles. -/
def analyzeTitleBody (title : String) (videoTitles : List String) : TitleAnalysis :=
  let related := relatedTitlesOf title videoTitles
  { relatedTitles := related
    hashtags := generateTrendingHashtags title videoTitles
    suggestions := generateOptimizationSuggestions title related }

/-! ## CSV generation (`src/lib/csv-utils.ts`) -/

structure CSVExportData where
  keyword : String
  searchVolume : Nat
  competitionScore : Nat
  trendDirection : String
  videoCount : Nat
  avgViews : Nat
deriving DecidableEq, Repr

def csvHeaders : List String :=
  ["Keyword", "Search Volume", "Competition Score (%)", "Trend Direction",
   "Video Count", "Average Views"]

/-- The `csvContent` string built by `generateCSV` (the `downloadCSV` DOM
side effect is outside the model): header line, then one line per row with
`keyword` and `trendDirection` double-quoted and the numeric fields bare. -/
def generateCSV (data : List CSVExportData) : String :=
  String.intercalate "\n" ((String.intercalate "," csvHeaders) ::
    data.map (fun row => String.intercalate ","
      ["\"" ++ row.keyword ++ "\"", toString row.searchVolume, toString row.competitionScore,
       "\"" ++ row.trendDirection ++ "\"", toString row.videoCount, toString row.avgViews]))

example : usKeywordBase "Big! Match: Highlights Today x" = "match highlights today" := by decide
example : indiaItem ⟨"A B C D", 5500, "17"⟩ = ⟨"A B C", 5, "17"⟩ := by decide
example : calculateTrendDirection [⟨0⟩, ⟨1⟩, ⟨2⟩, ⟨3⟩, ⟨4⟩] = .down := by decide
example : calculateTrendDirection [⟨0⟩, ⟨1⟩, ⟨2⟩, ⟨3⟩] = .stable := by decide
example : calculateTrendDirection [⟨0⟩, ⟨1⟩, ⟨2⟩, ⟨3⟩, ⟨4⟩, ⟨5⟩] = .stable := by decide
/-! ## Helper lemmas -/

/-- `jsRoundDiv` is `Math.round` of the exact quotient: `⌊a/d + 1/2⌋`. -/
theorem jsRoundDiv_eq_floor (a : ℤ) (d : ℕ) (hd : 0 < d) :
    jsRoundDiv a d = ⌊(a : ℚ) / (d : ℚ) + 1 / 2⌋ := by
  have hdq : (d : ℚ) ≠ 0 := by exact_mod_cast hd.ne'
  have h1 : (a : ℚ) / (d : ℚ) + 1 / 2 = ((2 * a + (d : ℤ) : ℤ) : ℚ) / ((2 * d : ℕ) : ℚ) := by
    push_cast
    field_simp
    ring
  rw [h1, Rat.floor_intCast_div_natCast]
  have h2 : ((2 * d : ℕ) : ℤ) = 2 * (d : ℤ) := by push_cast; ring
  rw [h2]
  rfl

/-- The keys of a `dedupByKeyGo` result are pairwise distinct and avoid
`seen`. -/
theorem dedupByKeyGo_map_nodup (key : α → String) (seen : List String) (l : List α) :
    ((dedupByKeyGo key seen l).map key).Nodup ∧
      ∀ s ∈ (dedupByKeyGo key seen l).map key, s ∉ seen := by
  induction l generalizing seen with
  | nil => simp [dedupByKeyGo]
  | cons x xs ih =>
    by_cases h : seen.contains (key x)
    · rw [dedupByKeyGo, if_pos h]
      exact ih seen
    · rw [dedupByKeyGo, if_neg h]
      obtain ⟨ih1, ih2⟩ := ih (key x :: seen)
      refine ⟨List.nodup_cons.mpr ⟨fun hmem => ih2 _ hmem (by simp), ih1⟩, ?_⟩
      intro s hs
      rcases List.mem_cons.mp hs with hx | hmem
      · subst hx
        simpa using h
      · intro hseen
        exact ih2 s hmem (List.mem_cons_of_mem _ hseen)

/-- The keys of a `dedupByKey` result are pairwise distinct. -/
theorem dedupByKey_map_nodup (key : α → String) (l : List α) :
    ((dedupByKey key l).map key).Nodup :=
  (dedupByKeyGo_map_nodup key [] l).1

/-- `splitChars` never returns an empty field list. -/
theorem splitChars_ne_nil (p : Char → Bool) (l : List Char) : splitChars p l ≠ [] := by
  cases l with
  | nil => simp [splitChars]
  | cons c cs =>
    rw [splitChars]
    split
    · simp
    · cases splitChars p cs <;> simp

/-- A list starting with a non-separator character splits into a first field
carrying that character. -/
theorem splitChars_head_cons (p : Char → Bool) (c : Char) (cs : List Char) (h : p c = false) :
    ∃ t ts, splitChars p (c :: cs) = (c :: t) :: ts := by
  rw [splitChars]
  rw [if_neg (by simp [h])]
  cases hs : splitChars p cs with
  | nil => exact absurd hs (splitChars_ne_nil p cs)
  | cons t ts => exact ⟨t, ts, rfl⟩

/-- A JS `split(/\s+/)` result is never empty. -/
theorem splitWs_length_pos (s : String) : 0 < (splitWs s).length := by
  unfold splitWs
  split
  · simp
  next c0 rest heq =>
    by_cases hws : c0.isWhitespace
    · simp only [hws, if_true]
      split <;> simp
    · obtain ⟨t, ts, hsplit⟩ := splitChars_head_cons Char.isWhitespace c0 rest
        (by simpa using hws)
      have hne : String.mk (c0 :: t) ≠ "" := by
        simp [String.ext_iff]
      have hlen : 0 < (((splitChars Char.isWhitespace s.data).map String.mk).filter
          (fun t => t ≠ "")).length := by
        rw [heq, hsplit]
        simp [List.filter_cons, hne]
      simp only [hws, Bool.false_eq_true, if_false]
      split
      · simp
      · simpa using hlen

/-- The word lists of `calculateSimilarity` are never empty, so the
executable integer comparison `similarBelow` agrees with the exact rational
test `calculateSimilarity < 0.7`. -/
theorem similarBelow_iff (str1 str2 : String) :
    similarBelow str1 str2 = true ↔ calculateSimilarity str1 str2 < 7 / 10 := by
  have h1 : 0 < (splitWs str1).length := splitWs_length_pos str1
  have hm : 0 < max (splitWs str1).length (splitWs str2).length :=
    lt_of_lt_of_le h1 (le_max_left _ _)
  unfold similarBelow calculateSimilarity
  rw [decide_eq_true_iff]
  rw [show (max ((splitWs str1).length : ℚ) ((splitWs str2).length : ℚ))
      = ((max (splitWs str1).length (splitWs str2).length : ℕ) : ℚ) by
    rw [Nat.cast_max]]
  rw [div_lt_div_iff₀ (by exact_mod_cast hm) (by norm_num)]
  constructor
  · intro h
    have h2 : (10 * commonWordCount str1 str2 : ℚ)
        < 7 * (max (splitWs str1).length (splitWs str2).length : ℕ) := by
      exact_mod_cast h
    linarith
  · intro h
    have h2 : (10 * commonWordCount str1 str2 : ℚ)
        < 7 * (max (splitWs str1).length (splitWs str2).length : ℕ) := by
      linarith
    exact_mod_cast h2

/-- Bounds on the clarity sub-score: it always lies in `[35, 80]`, so the
`Math.max(score, 20)` floor never binds. -/
theorem calculateClarityScore_bounds (title : String) :
    35 ≤ calculateClarityScore title ∧ calculateClarityScore title ≤ 80 := by
  unfold calculateClarityScore
  split_ifs <;> constructor <;> omega

theorem calculateLengthScore_le (title : String) : calculateLengthScore title ≤ 100 := by
  unfold calculateLengthScore
  split_ifs <;> omega

/-! ## Claims -/

/-- C3, counterexample: an operation that always fails with a status-429
error is invoked 3 times, but the wrapper then propagates that final
rate-limit error itself — its message is not "Max retries exceeded", so no
distinct terminal "max retries exceeded" failure is raised (that error is
reachable only with `maxRetries = 0`). -/
theorem C3_retry_counterexample :
    (retryWithBackoff (fun _ => (.error ⟨some 429, "Too Many Requests"⟩ : Except JsError Nat))
        3 1000).result = .error ⟨some 429, "Too Many Requests"⟩
    ∧ (retryWithBackoff (fun _ => (.error ⟨some 429, "Too Many Requests"⟩ : Except JsError Nat))
        3 1000).count = 3
    ∧ "Too Many Requests" ≠ "Max retries exceeded" := by
  refine ⟨rfl, rfl, by decide⟩

/-- C3, amended: `retryWithBackoff` with `maxRetries = 3`, base delay
1000 ms: an operation failing with status 429 on exactly its first two
invocations and succeeding on the third is invoked exactly 3 times with
waits `baseDelay·2^0 = 1000` and `baseDelay·2^1 = 2000` between attempts,
and the success value is returned; an operation that always fails with a
status-429 error is invoked exactly 3 times and the wrapper then propagates
that final rate-limit error itself (not a distinct "max retries exceeded"
failure). -/
theorem C3_retry_trace {α : Type} (ai : Nat → Except JsError α) (v : α) (e : JsError) :
    (ai 0 = .error e → ai 1 = .error e → ai 2 = .ok v → e.status = some 429 →
      retryWithBackoff ai 3 1000 = ⟨.ok v, [1000, 2000], 3⟩)
    ∧ ((∀ i, ai i = .error e) → e.status = some 429 →
      retryWithBackoff ai 3 1000 = ⟨.error e, [1000, 2000], 3⟩) := by
  constructor
  · intro h0 h1 h2 h429
    show retryLoop ai 1000 [0, 1, 2] = _
    rw [retryLoop, h0, retryLoop, h1, retryLoop, h2]
    simp [h429]
  · intro hall h429
    show retryLoop ai 1000 [0, 1, 2] = _
    rw [retryLoop, hall 0, retryLoop, hall 1, retryLoop, hall 2]
    simp [h429]

/-- C3, witness: the two retry traces at concrete operations. -/
theorem C3_retry_trace_witness :
    retryWithBackoff
        (fun i => if i < 2 then (.error ⟨some 429, "rate limited"⟩ : Except JsError Nat)
          else .ok 7) 3 1000 = ⟨.ok 7, [1000, 2000], 3⟩
    ∧ retryWithBackoff (fun _ => (.error ⟨some 429, "rate limited"⟩ : Except JsError Nat))
        3 1000 = ⟨.error ⟨some 429, "rate limited"⟩, [1000, 2000], 3⟩ :=
  ⟨(C3_retry_trace _ 7 ⟨some 429, "rate limited"⟩).1 rfl rfl rfl rfl,
   (C3_retry_trace _ 7 ⟨some 429, "rate limited"⟩).2 (fun _ => rfl) rfl⟩

/-- C1, counterexample: with the AI call failing with status 429 on every
attempt, the score-title handler and the title-rewrite handler both answer
HTTP 200 with the heuristic/template fallback marked `fallbackUsed: true` —
neither surfaces an HTTP 429 "rate limited" error. -/
theorem C1_rate_limit_counterexample :
    (scoreTitlePost "2025" (some "Test Title") true
        (fun _ => .error ⟨some 429, "Too Many Requests"⟩)).statusCode = 200
    ∧ scoreTitlePost "2025" (some "Test Title") true
        (fun _ => .error ⟨some 429, "Too Many Requests"⟩)
      = .fallback (calculateFallbackScore "2025" "Test Title") true (some scoreRateLimitMessage)
    ∧ (rewritePost (some "Test Title") true 0 0
        (fun _ => .error ⟨some 429, "Too Many Requests"⟩)).statusCode = 200
    ∧ rewritePost (some "Test Title") true 0 0
        (fun _ => .error ⟨some 429, "Too Many Requests"⟩)
      = .success (generateFallbackRewrites 0 0 "Test Title") "Test Title" true
          (some rewriteFallbackMessage) := by
  refine ⟨by decide, by decide, by decide, by decide⟩

/-- C1, amended: when the AI call fails with a rate-limit (status 429) error
on every attempt, then after the local retries are exhausted the score-title
handler and the title-rewrite handler each answer HTTP 200 with the
heuristic/template fallback, `fallbackUsed: true` and an explanatory
message, rather than surfacing a distinct HTTP 429 error (the rewrite
route's HTTP 429 `type: "rate_limit"` branch is unreachable from the AI
path, its inner catch having already substituted the fallback). -/
theorem C1_rate_limit_falls_back (currentYear t : String) (ht : t ≠ "") (e : JsError)
    (ai : Nat → Except JsError ParsedAI) (hai : ∀ i, ai i = .error e)
    (h429 : e.status = some 429)
    (hq : strContains e.message "quota" = false)
    (hb : strContains e.message "billing" = false)
    (t2 : String) (ht2 : t2 ≠ "") (pw em : Nat)
    (ai2 : Nat → Except JsError String) (hai2 : ∀ i, ai2 i = .error e) :
    scoreTitlePost currentYear (some t) true ai
      = .fallback (calculateFallbackScore currentYear t) true (some scoreRateLimitMessage)
    ∧ rewritePost (some t2) true pw em ai2
      = .success (generateFallbackRewrites pw em t2) t2 true (some rewriteFallbackMessage) := by
  have hres : (retryWithBackoff ai 3 1000).result = .error e := by
    show (retryLoop ai 1000 [0, 1, 2]).result = _
    rw [retryLoop, hai 0, retryLoop, hai 1, retryLoop, hai 2]
    simp [h429]
  have hres2 : rewriteTitlesWithAI t2 pw em ai2 3 = .error rewriteRateLimitError := by
    show rewriteLoop t2 pw em ai2 [1, 2, 3] = _
    rw [rewriteLoop, hai2 1, rewriteLoop, hai2 2, rewriteLoop, hai2 3]
    simp [h429]
  have hc : strContains rewriteRateLimitError.message "Rate limit exceeded" = true := by
    decide
  constructor
  · simp only [scoreTitlePost, hres]
    simp [ht, h429, hq, hb]
  · simp only [rewritePost, hres2]
    simp [ht2, hc]

/-- C1, witness: the rate-limit fallback at concrete inputs. -/
theorem C1_rate_limit_falls_back_witness :
    scoreTitlePost "2025" (some "My Video") true
        (fun _ => .error ⟨some 429, "Too Many Requests"⟩)
      = .fallback (calculateFallbackScore "2025" "My Video") true (some scoreRateLimitMessage)
    ∧ rewritePost (some "Other Video") true 2 3
        (fun _ => .error ⟨some 429, "Too Many Requests"⟩)
      = .success (generateFallbackRewrites 2 3 "Other Video") "Other Video" true
          (some rewriteFallbackMessage) :=
  C1_rate_limit_falls_back "2025" "My Video" (by decide) ⟨some 429, "Too Many Requests"⟩
    (fun _ => .error ⟨some 429, "Too Many Requests"⟩) (fun _ => rfl) rfl (by decide) (by decide)
    "Other Video" (by decide) 2 3 (fun _ => .error ⟨some 429, "Too Many Requests"⟩) (fun _ => rfl)

/-- C2, counterexample: when the AI call fails with HTTP 402 on its first
attempt, the title-rewrite handler does substitute the template fallback,
but its JSON response carries `fallbackUsed: false` and no message (the
fallback titles are returned from inside `rewriteTitlesWithAI`, so the
handler's flag is never set). -/
theorem C2_quota_counterexample :
    rewritePost (some "My Video") true 0 0 (fun _ => .error ⟨some 402, "Payment Required"⟩)
      = .success (generateFallbackRewrites 0 0 "My Video") "My Video" false none := by
  decide

/-- C2, amended: for the score-title handler the claim holds: on a
quota/billing signal (status 402, or a message containing "quota" or
"billing", and not status 429) the AI call is not retried (one invocation),
no error status is surfaced, and the response is the heuristic fallback with
`fallbackUsed: true` and a human-readable message.  The title-rewrite
handler falls back immediately only on status 402, and its response then
carries `fallbackUsed: false` and no message. -/
theorem C2_quota_fallback (currentYear t : String) (ht : t ≠ "") (e : JsError)
    (ai : Nat → Except JsError ParsedAI) (hai : ai 0 = .error e)
    (hq : e.status = some 402 ∨ strContains e.message "quota" = true
      ∨ strContains e.message "billing" = true)
    (h429 : e.status ≠ some 429)
    (t2 : String) (ht2 : t2 ≠ "") (pw em : Nat)
    (ai2 : Nat → Except JsError String) (e2 : JsError) (hai2 : ai2 1 = .error e2)
    (h402 : e2.status = some 402) :
    (scoreTitlePost currentYear (some t) true ai
        = .fallback (calculateFallbackScore currentYear t) true (some scoreQuotaMessage)
      ∧ (retryWithBackoff ai 3 1000).count = 1)
    ∧ rewritePost (some t2) true pw em ai2
        = .success (generateFallbackRewrites pw em t2) t2 false none := by
  have hretry : retryWithBackoff ai 3 1000 = ⟨.error e, [], 1⟩ := by
    show retryLoop ai 1000 [0, 1, 2] = _
    rw [retryLoop, hai]
    simp [h429]
  have hres2 : rewriteTitlesWithAI t2 pw em ai2 3
      = .ok (generateFallbackRewrites pw em t2) := by
    show rewriteLoop t2 pw em ai2 [1, 2, 3] = _
    rw [rewriteLoop, hai2]
    have : e2.status ≠ some 429 := by rw [h402]; decide
    simp [this, h402]
  refine ⟨⟨?_, by rw [hretry]⟩, ?_⟩
  · simp only [scoreTitlePost, hretry]
    rcases hq with hq | hq | hq <;> simp [ht, hq]
  · simp only [rewritePost, hres2]
    simp [ht2]

/-- C2, witness: the quota fallback at concrete inputs. -/
theorem C2_quota_fallback_witness :
    (scoreTitlePost "2025" (some "My Video") true
        (fun _ => .error ⟨some 402, "insufficient quota"⟩)
      = .fallback (calculateFallbackScore "2025" "My Video") true (some scoreQuotaMessage)
      ∧ (retryWithBackoff (fun _ =>
          (.error ⟨some 402, "insufficient quota"⟩ : Except JsError ParsedAI)) 3 1000).count = 1)
    ∧ rewritePost (some "Other Video") true 1 4
        (fun _ => .error ⟨some 402, "Payment Required"⟩)
      = .success (generateFallbackRewrites 1 4 "Other Video") "Other Video" false none :=
  C2_quota_fallback "2025" "My Video" (by decide) ⟨some 402, "insufficient quota"⟩
    (fun _ => .error ⟨some 402, "insufficient quota"⟩) rfl (.inl rfl) (by decide)
    "Other Video" (by decide) 1 4 (fun _ => .error ⟨some 402, "Payment Required"⟩)
    ⟨some 402, "Payment Required"⟩ rfl rfl

/-- C9: the score-title handler validates the parsed AI reply by truthiness:
a reply whose `overall` is present but `0`, with `breakdown`, `improvements`
and `strengths` all present, is discarded and silently replaced by the
heuristic fallback score (no `fallbackUsed` flag, no message). -/
theorem C9_truthy_validation (currentYear t : String) (ht : t ≠ "") (r : AIReply)
    (ai : Nat → Except JsError ParsedAI) (hai : ai 0 = .ok (.reply r))
    (hov : r.overall = some 0)
    (_hbr : r.breakdown.isSome = true)
    (_him : r.improvements.isSome = true)
    (_hst : r.strengths.isSome = true) :
    scoreTitlePost currentYear (some t) true ai
      = .fallback (calculateFallbackScore currentYear t) false none := by
  have hretry : retryWithBackoff ai 3 1000 = ⟨.ok (.reply r), [], 1⟩ := by
    show retryLoop ai 1000 [0, 1, 2] = _
    rw [retryLoop, hai]
  have hvalid : replyValid r = false := by
    unfold replyValid
    rw [hov]
    simp
  simp only [scoreTitlePost, hretry]
  simp [ht, hvalid]

/-- C9, witness: a reply with all four keys present but `overall = 0` is
replaced by the fallback score. -/
theorem C9_truthy_validation_witness :
    scoreTitlePost "2025" (some "My Video") true
        (fun _ => .ok (.reply ⟨some 0, some ⟨80, 80, 80, 80, 80⟩, some ["a"], some ["b"]⟩))
      = .fallback (calculateFallbackScore "2025" "My Video") false none :=
  C9_truthy_validation "2025" "My Video" (by decide)
    ⟨some 0, some ⟨80, 80, 80, 80, 80⟩, some ["a"], some ["b"]⟩
    (fun _ => .ok (.reply ⟨some 0, some ⟨80, 80, 80, 80, 80⟩, some ["a"], some ["b"]⟩))
    rfl rfl rfl rfl rfl

/-- C5: on the fallback path, `overall` is always the rounded mean
(`Math.round`, i.e. `⌊x + 1/2⌋`) of the five breakdown sub-scores. -/
theorem C5_overall_rounded_mean (currentYear title : String) :
    (calculateFallbackScore currentYear title).overall
      = ⌊((calculateLengthScore title + calculateKeywordScore title
          + calculateEngagementScore title + calculateClarityScore title
          + calculateTrendingScore currentYear title : ℤ) : ℚ) / 5 + 1 / 2⌋ := by
  have h := jsRoundDiv_eq_floor (calculateLengthScore title + calculateKeywordScore title
    + calculateEngagementScore title + calculateClarityScore title
    + calculateTrendingScore currentYear title) 5 (by norm_num)
  norm_num at h
  push_cast
  exact h

/-- C10: for every title of positive length the fallback clarity sub-score
lies in `[35, 80]` (the documented floor clamp at 20 never binds), and the
fallback overall score never exceeds 96 for any title. -/
theorem C10_clarity_overall_bounds (currentYear title : String) :
    (0 < title.length →
      35 ≤ calculateClarityScore title ∧ calculateClarityScore title ≤ 80)
    ∧ (calculateFallbackScore currentYear title).overall ≤ 96 := by
  refine ⟨fun _ => calculateClarityScore_bounds title, ?_⟩
  have h1 := calculateLengthScore_le title
  have h2 : calculateKeywordScore title ≤ 100 := min_le_right _ _
  have h3 : calculateEngagementScore title ≤ 100 := min_le_right _ _
  have h4 := (calculateClarityScore_bounds title).2
  have h5 : calculateTrendingScore currentYear title ≤ 100 := min_le_right _ _
  show jsRoundDiv (calculateLengthScore title + calculateKeywordScore title
    + calculateEngagementScore title + calculateClarityScore title
    + calculateTrendingScore currentYear title) 5 ≤ 96
  unfold jsRoundDiv
  omega

/-- C10, witness: the bounds at a concrete title. -/
theorem C10_clarity_overall_bounds_witness :
    (35 ≤ calculateClarityScore "My Video" ∧ calculateClarityScore "My Video" ≤ 80)
    ∧ (calculateFallbackScore "2025" "My Video").overall ≤ 96 :=
  ⟨(C10_clarity_overall_bounds "2025" "My Video").1 (by decide),
   (C10_clarity_overall_bounds "2025" "My Video").2⟩

/-- C4, counterexample: the India trending handler neither deduplicates nor
sorts — two videos sharing the derived keyword (first three words) both
survive in its output. -/
theorem C4_trending_counterexample :
    (indiaTrending [⟨"Big Match Highlights Today", 5000, "17"⟩,
        ⟨"Big Match Highlights Tonight", 4000, "17"⟩]).map TrendingItem.keyword
      = ["Big Match Highlights", "Big Match Highlights"] := by
  decide

/-- C4, amended: the US trending handler deduplicates by derived keyword
(every keyword appears at most once), sorts descending by approximate search
volume and truncates to 10, for any upstream videos and any random draws;
the India handler only truncates to 10 (no deduplication, no sort). -/
theorem C4_trending_shape (items : List VideoItem) (rand : Nat → ℚ) :
    ((usTrending items rand).map TrendingItem.keyword).Nodup
    ∧ List.Sorted volGe (usTrending items rand)
    ∧ (usTrending items rand).length ≤ 10
    ∧ (indiaTrending items).length ≤ 10 := by
  refine ⟨?_, ?_, ?_, ?_⟩
  · unfold usTrending
    have hd := dedupByKey_map_nodup TrendingItem.keyword
      (items.mapIdx (fun i v => usItem (rand i) v))
    have hperm := (List.perm_insertionSort volGe
      (dedupByKey TrendingItem.keyword
        (items.mapIdx (fun i v => usItem (rand i) v)))).map TrendingItem.keyword
    have hnd := hperm.nodup_iff.mpr hd
    rw [List.map_take]
    exact hnd.sublist (List.take_sublist 10 _)
  · unfold usTrending
    exact List.Pairwise.sublist (List.take_sublist 10 _)
      (List.sorted_insertionSort volGe _)
  · unfold usTrending
    rw [List.length_take]
    exact min_le_left _ _
  · unfold indiaTrending
    rw [List.length_map, List.length_take]
    exact min_le_left _ _

/-- C7: `generateCSV` on the single record
`{keyword: "cats", searchVolume: 100, competitionScore: 20, trendDirection:
"up", videoCount: 500, avgViews: 50}` yields a content whose second line is
exactly `"cats",100,20,"up",500,50`. -/
theorem C7_csv_second_line :
    (jsSplitChar '\n' (generateCSV [⟨"cats", 100, 20, "up", 500, 50⟩])).getD 1 ""
      = "\"cats\",100,20,\"up\",500,50" := by
  decide

/-- C8: `calculateTrendDirection` never returns "up": below 5 videos it is
"stable"; otherwise the compared "recent" half has `⌊n/2⌋` elements against
`⌈n/2⌉` older ones, so the recent count never exceeds 1.5 times the older
count; the only reachable non-"stable" value is "down", e.g. at exactly 5
videos. -/
theorem C8_trend_direction (videos : List SearchVideo) :
    calculateTrendDirection videos ≠ .up
    ∧ (videos.length < 5 → calculateTrendDirection videos = .stable)
    ∧ (5 ≤ videos.length →
        (trendRecent videos).length = videos.length / 2
        ∧ (trendOlder videos).length = videos.length - videos.length / 2)
    ∧ calculateTrendDirection [⟨0⟩, ⟨1⟩, ⟨2⟩, ⟨3⟩, ⟨4⟩] = .down := by
  have hr : (trendRecent videos).length = min (videos.length / 2) videos.length := by
    rw [trendRecent, List.length_take, trendSorted, List.length_insertionSort]
  have ho : (trendOlder videos).length = videos.length - videos.length / 2 := by
    rw [trendOlder, List.length_drop, trendSorted, List.length_insertionSort]
  refine ⟨?_, ?_, fun _ => ⟨by omega, ho⟩, by decide⟩
  · unfold calculateTrendDirection
    split_ifs with h1 h2
    · decide
    · exfalso
      rw [hr, ho] at h2
      omega
    · decide
    · decide
  · intro h
    unfold calculateTrendDirection
    rw [if_pos h]

/-- C8, witness: the direction facts at concrete inputs. -/
theorem C8_trend_direction_witness :
    calculateTrendDirection [⟨0⟩, ⟨1⟩, ⟨2⟩, ⟨3⟩, ⟨4⟩, ⟨5⟩] ≠ .up
    ∧ calculateTrendDirection [⟨9⟩, ⟨8⟩] = .stable
    ∧ ((trendRecent [⟨0⟩, ⟨1⟩, ⟨2⟩, ⟨3⟩, ⟨4⟩, ⟨5⟩]).length
          = ([⟨0⟩, ⟨1⟩, ⟨2⟩, ⟨3⟩, ⟨4⟩, ⟨5⟩] : List SearchVideo).length / 2
        ∧ (trendOlder [⟨0⟩, ⟨1⟩, ⟨2⟩, ⟨3⟩, ⟨4⟩, ⟨5⟩]).length
          = ([⟨0⟩, ⟨1⟩, ⟨2⟩, ⟨3⟩, ⟨4⟩, ⟨5⟩] : List SearchVideo).length
            - ([⟨0⟩, ⟨1⟩, ⟨2⟩, ⟨3⟩, ⟨4⟩, ⟨5⟩] : List SearchVideo).length / 2)
    ∧ calculateTrendDirection [⟨0⟩, ⟨1⟩, ⟨2⟩, ⟨3⟩, ⟨4⟩] = .down :=
  ⟨(C8_trend_direction [⟨0⟩, ⟨1⟩, ⟨2⟩, ⟨3⟩, ⟨4⟩, ⟨5⟩]).1,
   (C8_trend_direction [⟨9⟩, ⟨8⟩]).2.1 (by decide),
   (C8_trend_direction [⟨0⟩, ⟨1⟩, ⟨2⟩, ⟨3⟩, ⟨4⟩, ⟨5⟩]).2.2.1 (by decide),
   (C8_trend_direction []).2.2.2⟩

/-- C6: for every input title and upstream search result, the analyze-title
response has at most 8 related titles, each with word-overlap similarity
below 0.7 against the (lowercased) input title and longer than 20
characters; a deduplicated hashtag list of at most 12 entries; and at most 4
suggestions. -/
theorem C6_analysis_shape (title : String) (videoTitles : List String) :
    (analyzeTitleBody title videoTitles).relatedTitles.length ≤ 8
    ∧ (∀ t ∈ (analyzeTitleBody title videoTitles).relatedTitles,
        calculateSimilarity (jsToLower title) (jsToLower t) < 7 / 10 ∧ 20 < t.length)
    ∧ (analyzeTitleBody title videoTitles).hashtags.Nodup
    ∧ (analyzeTitleBody title videoTitles).hashtags.length ≤ 12
    ∧ (analyzeTitleBody title videoTitles).suggestions.length ≤ 4 := by
  have hdedup : ∀ l : List String, ((dedupByKey id l).take 12).Nodup := by
    intro l
    have h := dedupByKey_map_nodup id l
    rw [List.map_id] at h
    exact h.sublist (List.take_sublist 12 _)
  refine ⟨?_, ?_, hdedup _, ?_, ?_⟩
  · show ((videoTitles.filter _).take 8).length ≤ 8
    rw [List.length_take]
    exact min_le_left _ _
  · intro t ht
    have ht' := List.mem_of_mem_take ht
    have hp := (List.mem_filter.mp ht').2
    rw [Bool.and_eq_true] at hp
    exact ⟨(similarBelow_iff _ _).mp hp.1, of_decide_eq_true hp.2⟩
  · show ((dedupByKey id _).take 12).length ≤ 12
    rw [List.length_take]
    exact min_le_left _ _
  · show (List.take 4 _).length ≤ 4
    rw [List.length_take]
    exact min_le_left _ _

/-- C6, witness: the response shape at a concrete title and upstream result,
including the similarity and length facts at a concrete related title. -/
theorem C6_analysis_shape_witness :
    (analyzeTitleBody "How to Cook"
        ["An Extremely Long Different Video Title Here"]).relatedTitles.length ≤ 8
    ∧ (calculateSimilarity (jsToLower "How to Cook")
          (jsToLower "An Extremely Long Different Video Title Here") < 7 / 10
        ∧ 20 < ("An Extremely Long Different Video Title Here" : String).length)
    ∧ (analyzeTitleBody "How to Cook"
        ["An Extremely Long Different Video Title Here"]).hashtags.Nodup
    ∧ (analyzeTitleBody "How to Cook"
        ["An Extremely Long Different Video Title Here"]).hashtags.length ≤ 12
    ∧ (analyzeTitleBody "How to Cook"
        ["An Extremely Long Different Video Title Here"]).suggestions.length ≤ 4 :=
  ⟨(C6_analysis_shape "How to Cook" ["An Extremely Long Different Video Title Here"]).1,
   (C6_analysis_shape "How to Cook" ["An Extremely Long Different Video Title Here"]).2.1
     "An Extremely Long Different Video Title Here" (by decide),
   (C6_analysis_shape "How to Cook" ["An Extremely Long Different Video Title Here"]).2.2.1,
   (C6_analysis_shape "How to Cook" ["An Extremely Long Different Video Title Here"]).2.2.2.1,
   (C6_analysis_shape "How to Cook" ["An Extremely Long Different Video Title Here"]).2.2.2.2⟩
